import Mathlib

/-!
Verification of the WirelessDMXReceiver library (WirelessDMXReceiver.h /
WirelessDMXReceiver.cpp).

The development shallowly embeds the link-acquisition scanner, the frame
validation / sequence-tracking / universe-reassembly engine and the public
read accessors of the `WirelessDMXReceiver` class.  Machine integers are
modelled as `Nat` with explicit reductions modulo `2^32` (the target is a
32-bit ESP32, so `unsigned int`, `int` and `size_t` are 32 bits wide) and
modulo `2^8` for `uint8_t` fields.  Radio, serial, LED and watchdog calls
are external input and output with no effect on the modelled state; the outcome of a
radio probe and the frames delivered by the radio are inputs of the
corresponding step functions.
-/

/-! ### Protocol constants, from WirelessDMXReceiver.h -/

def DMX_BUFSIZE : Nat := 512

def WDMX_PAYLOAD_SIZE : Nat := 32

def WDMX_HEADER_SIZE : Nat := 4

/-- Number of DMX data bytes in one frame: `sizeof(rxBuf.dmxData)` = 32 - 4 = 28. -/
def payloadDataSize : Nat := WDMX_PAYLOAD_SIZE - WDMX_HEADER_SIZE

def WDMX_MAGIC_1 : Nat := 0x80

def WDMX_MAGIC_2 : Nat := 0xA0

/-- Modulus of the 32-bit `unsigned int` / `size_t` arithmetic of the target. -/
def UINT32_MOD : Nat := 2 ^ 32

/-- Truncation to a `uint8_t`, as in the assignments to the address bytes. -/
def byteOf (x : Nat) : Nat := x % 256

/-- C bitwise complement `~x` of a 32-bit unsigned value. -/
def bitnot32 (x : Nat) : Nat := (UINT32_MOD - 1) - x % UINT32_MOD

/-! ### _getAddress

`WirelessDMXReceiver::_getAddress(channel, ID)` fills the five bytes of a
union `{channel, ID, ~channel, ~ID, channel + ID}` (each assignment
truncating to `uint8_t`) and returns the union as an integer.  Only the low
40 bits are ever consumed (the nRF24L01 pipe address is 5 bytes wide); we
model the packed 40-bit little-endian value. -/

def getAddress (channel ID : Nat) : Nat :=
  byteOf channel
    + 2 ^ 8 * byteOf ID
    + 2 ^ 16 * byteOf (bitnot32 channel)
    + 2 ^ 24 * byteOf (bitnot32 ID)
    + 2 ^ 32 * byteOf (channel + ID)

lemma byteOf_bitnot32 (x : Nat) (hx : x < 256) : byteOf (bitnot32 x) = 255 - x := by
  unfold byteOf bitnot32 UINT32_MOD
  omega

/-- Byte extraction from a five-byte little-endian packed value. -/
lemma pack5_bytes (a0 a1 a2 a3 a4 : Nat)
    (h0 : a0 < 256) (h1 : a1 < 256) (h2 : a2 < 256) (h3 : a3 < 256) (h4 : a4 < 256) :
    (a0 + 2 ^ 8 * a1 + 2 ^ 16 * a2 + 2 ^ 24 * a3 + 2 ^ 32 * a4) % 2 ^ 8 = a0 ∧
    (a0 + 2 ^ 8 * a1 + 2 ^ 16 * a2 + 2 ^ 24 * a3 + 2 ^ 32 * a4) / 2 ^ 8 % 2 ^ 8 = a1 ∧
    (a0 + 2 ^ 8 * a1 + 2 ^ 16 * a2 + 2 ^ 24 * a3 + 2 ^ 32 * a4) / 2 ^ 16 % 2 ^ 8 = a2 ∧
    (a0 + 2 ^ 8 * a1 + 2 ^ 16 * a2 + 2 ^ 24 * a3 + 2 ^ 32 * a4) / 2 ^ 24 % 2 ^ 8 = a3 ∧
    (a0 + 2 ^ 8 * a1 + 2 ^ 16 * a2 + 2 ^ 24 * a3 + 2 ^ 32 * a4) / 2 ^ 32 % 2 ^ 8 = a4 ∧
    (a0 + 2 ^ 8 * a1 + 2 ^ 16 * a2 + 2 ^ 24 * a3 + 2 ^ 32 * a4) < 2 ^ 40 := by
  omega

/-- Byte decomposition of the encoded address for byte-sized inputs. -/
lemma getAddress_bytes (ch id : Nat) (h1 : ch < 256) (h2 : id < 256) :
    getAddress ch id % 2 ^ 8 = ch ∧
    getAddress ch id / 2 ^ 8 % 2 ^ 8 = id ∧
    getAddress ch id / 2 ^ 16 % 2 ^ 8 = 255 - ch ∧
    getAddress ch id / 2 ^ 24 % 2 ^ 8 = 255 - id ∧
    getAddress ch id / 2 ^ 32 % 2 ^ 8 = (ch + id) % 256 ∧
    getAddress ch id < 2 ^ 40 := by
  have hb : byteOf ch = ch := Nat.mod_eq_of_lt h1
  have hb2 : byteOf id = id := Nat.mod_eq_of_lt h2
  unfold getAddress
  rw [byteOf_bitnot32 ch h1, byteOf_bitnot32 id h2, hb, hb2]
  exact pack5_bytes ch id (255 - ch) (255 - id) (byteOf (ch + id))
    h1 h2 (by omega) (by omega) (Nat.mod_lt _ (by decide))

/-- C7: for every channel and unit ID representable in one byte, `_getAddress`
deterministically packs the 40-bit address whose five bytes are
channel, unitID, bitwise complement of channel, bitwise complement of unitID,
and (channel + unitID) mod 256.  (For a byte value `b`, the bitwise complement
is `255 - b`.) -/
theorem C7_getAddress_bytes (ch id : Nat) (h1 : ch < 256) (h2 : id < 256) :
    getAddress ch id % 2 ^ 8 = ch ∧
    getAddress ch id / 2 ^ 8 % 2 ^ 8 = id ∧
    getAddress ch id / 2 ^ 16 % 2 ^ 8 = 255 - ch ∧
    getAddress ch id / 2 ^ 24 % 2 ^ 8 = 255 - id ∧
    getAddress ch id / 2 ^ 32 % 2 ^ 8 = (ch + id) % 256 ∧
    getAddress ch id < 2 ^ 40 :=
  getAddress_bytes ch id h1 h2

/-- Witness for C7 at channel 40, unit ID 3. -/
theorem C7_witness :
    getAddress 40 3 % 2 ^ 8 = 40 ∧
    getAddress 40 3 / 2 ^ 8 % 2 ^ 8 = 3 ∧
    getAddress 40 3 / 2 ^ 16 % 2 ^ 8 = 255 - 40 ∧
    getAddress 40 3 / 2 ^ 24 % 2 ^ 8 = 255 - 3 ∧
    getAddress 40 3 / 2 ^ 32 % 2 ^ 8 = (40 + 3) % 256 ∧
    getAddress 40 3 < 2 ^ 40 :=
  C7_getAddress_bytes 40 3 (by decide) (by decide)

/-- C8: the address encoder is injective over the valid scan domain:
distinct (channel, unitID) pairs with channel in [0,126) and unitID in [1,7]
encode to distinct addresses. -/
theorem C8_getAddress_injective (c1 i1 c2 i2 : Nat)
    (hc1 : c1 < 126) (hi1 : 1 ≤ i1) (hi1u : i1 ≤ 7)
    (hc2 : c2 < 126) (hi2 : 1 ≤ i2) (hi2u : i2 ≤ 7)
    (heq : getAddress c1 i1 = getAddress c2 i2) : c1 = c2 ∧ i1 = i2 := by
  have b1 := getAddress_bytes c1 i1 (by omega) (by omega)
  have b2 := getAddress_bytes c2 i2 (by omega) (by omega)
  rw [heq] at b1
  have e1 := b1.1
  have e2 := b2.1
  have e3 := b1.2.1
  have e4 := b2.2.1
  exact ⟨by omega, by omega⟩

/-- Witness for C8 at the pair (40, 3) compared with itself. -/
theorem C8_witness : (40 : Nat) = 40 ∧ (3 : Nat) = 3 :=
  C8_getAddress_injective 40 3 40 3 (by decide) (by decide) (by decide)
    (by decide) (by decide) (by decide) rfl

/-! ### The universe-reassembly copy of _dmxReceiveLoop

The loop computes `int dmxChanStart = rxBuf.payloadID * sizeof(rxBuf.dmxData)`
and then performs

  memcpy(&dmxBuffer[dmxChanStart], &rxBuf.dmxData,
         min(sizeof(rxBuf.dmxData), sizeof(dmxBuffer)-dmxChanStart));
  if (dmxChanStart+sizeof(rxBuf.dmxData) > sizeof(dmxBuffer)) {
    memcpy(&dmxBuffer, &rxBuf.dmxData[sizeof(dmxBuffer)-dmxChanStart],
           dmxChanStart+sizeof(rxBuf.dmxData)-sizeof(dmxBuffer));
  }

`sizeof` values are `size_t` (32 bits on the ESP32 target), so the
subtraction `sizeof(dmxBuffer)-dmxChanStart` is performed modulo `2^32`. -/

/-- 32-bit `size_t` subtraction `a - b`. -/
def sizetSub (a b : Nat) : Nat := (a + UINT32_MOD - b % UINT32_MOD) % UINT32_MOD

/-- A `memcpy` of `len` bytes from `src` at `srcOff` into `dst` at `dstOff`,
byte by byte.  A destination index beyond the end of `dst` leaves the list
unchanged (the concrete C code would write out of bounds there; the write
indices are tracked separately by `memcpyWriteIdx`). -/
def memcpyBytes (dst : List Nat) (dstOff : Nat) (src : List Nat) (srcOff len : Nat) :
    List Nat :=
  (List.range len).foldl (fun d i => d.set (dstOff + i) (src.getD (srcOff + i) 0)) dst

/-- The destination indices a `memcpy` of `len` bytes at `dstOff` writes to. -/
def memcpyWriteIdx (dstOff len : Nat) : List Nat :=
  (List.range len).map (fun i => dstOff + i)

/-- Effect of the two `memcpy` calls above on the DMX buffer, for a frame with
the given `payloadID` (the C local `dmxChanStart` is `payloadID * payloadDataSize`). -/
def applyPayload (buf payload : List Nat) (payloadID : Nat) : List Nat :=
  if payloadID * payloadDataSize + payloadDataSize > DMX_BUFSIZE then
    memcpyBytes
      (memcpyBytes buf (payloadID * payloadDataSize) payload 0
        (min payloadDataSize (sizetSub DMX_BUFSIZE (payloadID * payloadDataSize))))
      0 payload (sizetSub DMX_BUFSIZE (payloadID * payloadDataSize))
      (payloadID * payloadDataSize + payloadDataSize - DMX_BUFSIZE)
  else
    memcpyBytes buf (payloadID * payloadDataSize) payload 0
      (min payloadDataSize (sizetSub DMX_BUFSIZE (payloadID * payloadDataSize)))

/-- The DMX-buffer indices the two `memcpy` calls write to for a given
`payloadID`. -/
def dmxWriteIdx (payloadID : Nat) : List Nat :=
  memcpyWriteIdx (payloadID * payloadDataSize)
      (min payloadDataSize (sizetSub DMX_BUFSIZE (payloadID * payloadDataSize))) ++
    (if payloadID * payloadDataSize + payloadDataSize > DMX_BUFSIZE then
      memcpyWriteIdx 0 (payloadID * payloadDataSize + payloadDataSize - DMX_BUFSIZE)
    else [])

lemma sizetSub_of_le (a b : Nat) (hb : b ≤ a) (ha : a < UINT32_MOD) :
    sizetSub a b = a - b := by
  unfold sizetSub UINT32_MOD at *
  omega

lemma memcpyBytes_zero (dst src : List Nat) (o so : Nat) :
    memcpyBytes dst o src so 0 = dst := rfl

lemma memcpyBytes_succ (dst src : List Nat) (o so n : Nat) :
    memcpyBytes dst o src so (n + 1) =
      (memcpyBytes dst o src so n).set (o + n) (src.getD (so + n) 0) := by
  unfold memcpyBytes
  rw [List.range_succ, List.foldl_append]
  rfl

lemma memcpyBytes_length (dst src : List Nat) (o so n : Nat) :
    (memcpyBytes dst o src so n).length = dst.length := by
  induction n with
  | zero => rfl
  | succ k ih => rw [memcpyBytes_succ, List.length_set, ih]

lemma getD_set (l : List Nat) (j v i : Nat) :
    (l.set j v).getD i 0 = if j = i ∧ j < l.length then v else l.getD i 0 := by
  by_cases hji : j = i
  · subst hji
    by_cases hl : j < l.length
    · rw [List.getD_eq_getElem?_getD, List.getElem?_set_eq_of_lt v hl, if_pos ⟨rfl, hl⟩]
      rfl
    · rw [List.set_eq_of_length_le (by omega), if_neg (by omega)]
  · rw [List.getD_eq_getElem?_getD, List.getElem?_set_ne hji, if_neg (by simp [hji]),
      List.getD_eq_getElem?_getD]

lemma memcpyBytes_getD (dst src : List Nat) (o so n : Nat)
    (hn : o + n ≤ dst.length) (i : Nat) :
    (memcpyBytes dst o src so n).getD i 0 =
      if o ≤ i ∧ i < o + n then src.getD (so + (i - o)) 0 else dst.getD i 0 := by
  induction n with
  | zero =>
    rw [memcpyBytes_zero, if_neg (by omega)]
  | succ k ih =>
    rw [memcpyBytes_succ, getD_set, memcpyBytes_length, ih (by omega)]
    by_cases hik : o + k = i
    · rw [if_pos ⟨hik, by omega⟩, if_pos (by omega)]
      congr 1
      omega
    · rw [if_neg (by omega)]
      by_cases hin : o ≤ i ∧ i < o + k
      · rw [if_pos hin, if_pos (by omega)]
      · rw [if_neg hin, if_neg (by omega)]

/-- C1 counterexample: for a valid frame with sequenceIndex 19 the offset is
532, beyond the 512-byte universe.  The `size_t` subtraction
`sizeof(dmxBuffer)-dmxChanStart` underflows, the `min` yields 28, and the
first `memcpy` writes to index 532 (and beyond), outside the buffer:
the claim that no write falls outside the buffer for every sequenceIndex
byte fails. -/
theorem C1_counterexample : 532 ∈ dmxWriteIdx 19 ∧ ¬(532 < DMX_BUFSIZE) := by decide

/-- C1 (amended): for every valid frame whose sequenceIndex is at most 18
(so offset = sequenceIndex * 28 is at most 504), the reassembler writes
min(28, 512 - offset) payload bytes at offset, and when offset + 28 > 512 it
writes the remaining offset + 28 - 512 payload bytes starting at index 0,
with every write inside the 512-byte buffer.  (For sequenceIndex at least 19
the claim fails; see the counterexample.) -/
theorem C1_payload_copy (pid : Nat) (hpid : pid ≤ 18) (buf payload : List Nat)
    (hb : buf.length = DMX_BUFSIZE) (hp : payload.length = payloadDataSize) :
    (∀ i ∈ dmxWriteIdx pid, i < DMX_BUFSIZE) ∧
    (applyPayload buf payload pid).length = DMX_BUFSIZE ∧
    (∀ i, i < DMX_BUFSIZE →
      (applyPayload buf payload pid).getD i 0 =
        if pid * payloadDataSize ≤ i ∧
            i < pid * payloadDataSize +
              min payloadDataSize (DMX_BUFSIZE - pid * payloadDataSize) then
          payload.getD (i - pid * payloadDataSize) 0
        else if pid * payloadDataSize + payloadDataSize > DMX_BUFSIZE ∧
            i < pid * payloadDataSize + payloadDataSize - DMX_BUFSIZE then
          payload.getD (DMX_BUFSIZE - pid * payloadDataSize + i) 0
        else buf.getD i 0) := by
  have hpd : payloadDataSize = 28 := rfl
  have hdb : DMX_BUFSIZE = 512 := rfl
  have hs : pid * payloadDataSize ≤ 504 := by
    rw [hpd]; omega
  have hsub : sizetSub DMX_BUFSIZE (pid * payloadDataSize) =
      DMX_BUFSIZE - pid * payloadDataSize :=
    sizetSub_of_le _ _ (by omega) (by decide)
  by_cases hcond : pid * payloadDataSize + payloadDataSize > DMX_BUFSIZE
  · -- the straddling case: pid = 18, offset 504
    have hpid18 : pid = 18 := by rw [hpd, hdb] at hcond; omega
    subst hpid18
    have hmin : min payloadDataSize (DMX_BUFSIZE - 18 * payloadDataSize) = 8 := by decide
    refine ⟨?_, ?_, ?_⟩
    · intro i hi
      unfold dmxWriteIdx memcpyWriteIdx at hi
      rw [hsub, hmin, if_pos hcond] at hi
      simp only [List.mem_append, List.mem_map, List.mem_range] at hi
      rcases hi with ⟨j, hj, rfl⟩ | ⟨j, hj, rfl⟩ <;> omega
    · unfold applyPayload
      rw [if_pos hcond, memcpyBytes_length, memcpyBytes_length, hb]
    · intro i hi
      unfold applyPayload
      rw [if_pos hcond, hsub, hmin]
      rw [memcpyBytes_getD _ _ 0 _ _
          (by rw [memcpyBytes_length, hb, hpd, hdb]; omega) i,
        memcpyBytes_getD _ _ _ 0 8 (by rw [hb]; decide) i]
      rw [hpd, hdb] at *
      norm_num
      by_cases h1 : i < 20
      · rw [if_pos (by omega), if_neg (by omega), if_pos (by omega)]
      · rw [if_neg (by omega)]
        by_cases h2 : 504 ≤ i
        · rw [if_pos (by omega), if_pos (by omega)]
        · rw [if_neg (by omega), if_neg (by omega), if_neg (by omega)]
  · -- the in-range case: pid at most 17, the whole payload fits below 512
    have hle : pid * payloadDataSize + payloadDataSize ≤ 512 := by
      rw [hdb] at hcond; omega
    have hmin : min payloadDataSize (DMX_BUFSIZE - pid * payloadDataSize) =
        payloadDataSize := by
      rw [hpd, hdb] at *; omega
    refine ⟨?_, ?_, ?_⟩
    · intro i hi
      unfold dmxWriteIdx memcpyWriteIdx at hi
      rw [hsub, hmin, if_neg hcond] at hi
      simp only [List.append_nil, List.mem_map, List.mem_range] at hi
      rcases hi with ⟨j, hj, rfl⟩
      rw [hpd, hdb] at *
      omega
    · unfold applyPayload
      rw [if_neg hcond, memcpyBytes_length, hb]
    · intro i hi
      unfold applyPayload
      rw [if_neg hcond, hsub, hmin]
      rw [memcpyBytes_getD _ _ _ 0 _ (by omega) i]
      simp only [Nat.zero_add]
      by_cases h1 : pid * payloadDataSize ≤ i ∧ i < pid * payloadDataSize + payloadDataSize
      · rw [if_pos h1, if_pos h1]
      · rw [if_neg h1, if_neg h1, if_neg (by rw [hpd, hdb] at *; omega)]

/-- Witness for C1 at sequenceIndex 18 on the zero buffer and the constant
payload 7. -/
theorem C1_witness :
    (∀ i ∈ dmxWriteIdx 18, i < DMX_BUFSIZE) ∧
    (applyPayload (List.replicate 512 0) (List.replicate 28 7) 18).length = DMX_BUFSIZE ∧
    (∀ i, i < DMX_BUFSIZE →
      (applyPayload (List.replicate 512 0) (List.replicate 28 7) 18).getD i 0 =
        if 18 * payloadDataSize ≤ i ∧
            i < 18 * payloadDataSize +
              min payloadDataSize (DMX_BUFSIZE - 18 * payloadDataSize) then
          (List.replicate 28 7).getD (i - 18 * payloadDataSize) 0
        else if 18 * payloadDataSize + payloadDataSize > DMX_BUFSIZE ∧
            i < 18 * payloadDataSize + payloadDataSize - DMX_BUFSIZE then
          (List.replicate 28 7).getD (DMX_BUFSIZE - 18 * payloadDataSize + i) 0
        else (List.replicate 512 0).getD i 0) :=
  C1_payload_copy 18 (by decide) (List.replicate 512 0) (List.replicate 28 7)
    (by rw [List.length_replicate]; rfl) (by rw [List.length_replicate]; rfl)

/-! ### Receiver state

State of a `WirelessDMXReceiver` object together with the two local
variables of `_dmxReceiveLoop` (`prevPayloadID`, `firstFrame`).  Unit IDs
(`wdmxID_t`) are bytes with `AUTO = 0`, `RED = 1`, ..., `WHITE = 7`. -/

def AUTO : Nat := 0

def RED : Nat := 1

def WHITE : Nat := 7

/-- The C `operator++` on `wdmxID_t`: `id = (id + 1) % 8`. -/
def wdmxSucc (id : Nat) : Nat := (id + 1) % 8

/-- One received radio payload (`struct wdmxReceiveBuffer`). -/
structure wdmxReceiveBuffer where
  magic : Nat
  payloadID : Nat
  highestChannelID : Nat
  dmxData : List Nat
  deriving DecidableEq, Repr

/-- The `WirelessDMXReceiver` object state.  `configID` is `_configID`,
`ID` is `_ID`, and so on; `prevPayloadID` and `firstFrame` model the local
variables of `_dmxReceiveLoop`. -/
structure WirelessDMXReceiver where
  dmxBuffer : List Nat
  configID : Nat
  ID : Nat
  channel : Nat
  locked : Bool
  lastRxMillis : Nat
  rxCount : Nat
  rxInvalid : Nat
  rxOverruns : Nat
  rxSeqErrors : Nat
  capture : Bool
  captureBuffer : List wdmxReceiveBuffer
  prevPayloadID : Nat
  firstFrame : Bool
  deriving DecidableEq, Repr

/-- The constructed object: the in-class member defaults set `_lastRxMillis`
and the four counters to 0; the remaining fields are indeterminate in C
until `begin` runs and are modelled as canonical zero values. -/
def initReceiver : WirelessDMXReceiver where
  dmxBuffer := List.replicate DMX_BUFSIZE 0
  configID := AUTO
  ID := AUTO
  channel := 0
  locked := false
  lastRxMillis := 0
  rxCount := 0
  rxInvalid := 0
  rxOverruns := 0
  rxSeqErrors := 0
  capture := false
  captureBuffer := []
  prevPayloadID := 0
  firstFrame := true

/-- The state updates of `begin(ID, scanCallback)`: the pre-scan cursor
initialisation, the post-lock clearing of the DMX buffer, and fresh local
variables for the reception thread.  Radio configuration is an external radio action;
the scan itself is the iteration of `scanNext` below.  `begin` touches no
counter. -/
def beginInit (s : WirelessDMXReceiver) (ID : Nat) : WirelessDMXReceiver :=
  { s with
    configID := ID
    channel := 0
    locked := false
    ID := if ID = AUTO then RED else ID
    dmxBuffer := List.replicate DMX_BUFSIZE 0
    prevPayloadID := 0
    firstFrame := true }

/-- One call of `_scanNext()`.  `probe` is the result of `_scanChannel()`
(whether a frame with a valid magic arrived within the 10 ms window at the
current channel and unit ID; this depends only on the radio).  On failure
the channel cursor advances; it is reset to 0 only when, after the
increment, `_channel > 126`, and only then does an AUTO configuration step
the unit ID (RED..WHITE cyclically). -/
def scanNext (s : WirelessDMXReceiver) (probe : Bool) : WirelessDMXReceiver :=
  let s1 := { s with locked := probe }
  if s1.locked then s1
  else if s1.channel + 1 > 126 then
    if s1.configID = AUTO then
      if s1.ID < WHITE then { s1 with channel := 0, ID := wdmxSucc s1.ID }
      else { s1 with channel := 0, ID := RED }
    else { s1 with channel := 0 }
  else { s1 with channel := s1.channel + 1 }

/-- `RingBuf::pushOverwrite` on the 2048-entry capture buffer: drop the
oldest entry when full. -/
def pushOverwrite (buf : List wdmxReceiveBuffer) (x : wdmxReceiveBuffer) :
    List wdmxReceiveBuffer :=
  if buf.length < 2048 then buf ++ [x] else buf.drop 1 ++ [x]

/-- Processing of one frame read from the radio inside `_dmxReceiveLoop`:
optional capture, magic validation, sequence-continuity check (skipped for
the first valid frame), counter and `prevPayloadID` updates, and the
universe copy.  The loop never assigns `_lastRxMillis`. -/
def processFrame (s : WirelessDMXReceiver) (rxBuf : wdmxReceiveBuffer) :
    WirelessDMXReceiver :=
  let s0 := if s.capture then
    { s with captureBuffer := pushOverwrite s.captureBuffer rxBuf } else s
  if rxBuf.magic ≠ WDMX_MAGIC_1 ∧ rxBuf.magic ≠ WDMX_MAGIC_2 then
    { s0 with rxInvalid := s0.rxInvalid + 1 }
  else
    let s1 :=
      if s0.firstFrame then { s0 with firstFrame := false }
      else if (rxBuf.payloadID > 0 ∧ rxBuf.payloadID ≠ s0.prevPayloadID + 1) ∨
          (rxBuf.payloadID = 0 ∧
            s0.prevPayloadID ≠ rxBuf.highestChannelID / payloadDataSize) then
        { s0 with rxSeqErrors := s0.rxSeqErrors + 1 }
      else s0
    let s2 := { s1 with rxCount := s1.rxCount + 1, prevPayloadID := rxBuf.payloadID }
    { s2 with dmxBuffer := applyPayload s2.dmxBuffer rxBuf.dmxData rxBuf.payloadID }

/-- One iteration of the `while (true)` reception loop: poll the latched
FIFO-full flag, then process one frame if the radio has one available. -/
def loopIter (s : WirelessDMXReceiver) (fifoFull : Bool)
    (frame : Option wdmxReceiveBuffer) : WirelessDMXReceiver :=
  let s0 := if fifoFull then { s with rxOverruns := s.rxOverruns + 1 } else s
  match frame with
  | none => s0
  | some rxBuf => processFrame s0 rxBuf

/-! ### Public read accessors -/

/-- The buffer index accessed by `getValue(address)`: `address-1` in
`unsigned int` arithmetic. -/
def getValueIdx (address : Nat) : Nat := sizetSub address 1

/-- `getValue(address)` returns `dmxBuffer[address-1]`. -/
def getValue (s : WirelessDMXReceiver) (address : Nat) : Nat :=
  s.dmxBuffer.getD (getValueIdx address) 0

/-- The buffer indices read by `getValues(startAddress, length, buffer)`:
`startAddress-1` through `startAddress-1+length-1`. -/
def getValuesIdx (startAddress length : Nat) : List Nat :=
  (List.range length).map (fun i => getValueIdx startAddress + i)

/-- `getValues(startAddress, length, buffer)` copies `length` bytes starting
at `dmxBuffer[startAddress-1]`. -/
def getValues (s : WirelessDMXReceiver) (startAddress length : Nat) : List Nat :=
  (List.range length).map (fun i => s.dmxBuffer.getD (getValueIdx startAddress + i) 0)

/-- Modelled from the spec: the expected sequence index of the next frame,
computed from the previous frame.  "let expected = (previousSequenceIndex ==
wrapSequenceIndex(previous)) ? 0 : previousSequenceIndex + 1" with
`wrapSequenceIndex = highestChannelIndex / 28` of the previous frame.  The
code itself has no such function; this definition exists only to compare
the claim C2 against the behaviour of `processFrame`. -/
def specSeqExpected (prevSeq prevHighestChannel : Nat) : Nat :=
  if prevSeq = prevHighestChannel / payloadDataSize then 0 else prevSeq + 1

/-! ### Claims about the reception loop -/

/-- C4: a frame whose magic matches neither accepted value increments
`rxInvalid` by exactly 1 and leaves the DMX buffer, the sequence-tracking
state (`prevPayloadID`, `firstFrame`), `rxCount`, `rxSeqErrors` (and the
other counters and `lastRxMillis`) unchanged; the loop continues with the
next frame. -/
theorem C4_invalid_magic (s : WirelessDMXReceiver) (rxBuf : wdmxReceiveBuffer)
    (hm1 : rxBuf.magic ≠ WDMX_MAGIC_1) (hm2 : rxBuf.magic ≠ WDMX_MAGIC_2) :
    (processFrame s rxBuf).rxInvalid = s.rxInvalid + 1 ∧
    (processFrame s rxBuf).dmxBuffer = s.dmxBuffer ∧
    (processFrame s rxBuf).prevPayloadID = s.prevPayloadID ∧
    (processFrame s rxBuf).firstFrame = s.firstFrame ∧
    (processFrame s rxBuf).rxCount = s.rxCount ∧
    (processFrame s rxBuf).rxSeqErrors = s.rxSeqErrors ∧
    (processFrame s rxBuf).rxOverruns = s.rxOverruns ∧
    (processFrame s rxBuf).lastRxMillis = s.lastRxMillis := by
  by_cases hc : s.capture <;> simp [processFrame, hc, hm1, hm2]

/-- Witness for C4: a frame with magic 0 between valid traffic. -/
theorem C4_witness :
    (processFrame initReceiver ⟨0, 3, 511, List.replicate 28 9⟩).rxInvalid =
      initReceiver.rxInvalid + 1 ∧
    (processFrame initReceiver ⟨0, 3, 511, List.replicate 28 9⟩).dmxBuffer =
      initReceiver.dmxBuffer ∧
    (processFrame initReceiver ⟨0, 3, 511, List.replicate 28 9⟩).prevPayloadID =
      initReceiver.prevPayloadID ∧
    (processFrame initReceiver ⟨0, 3, 511, List.replicate 28 9⟩).firstFrame =
      initReceiver.firstFrame ∧
    (processFrame initReceiver ⟨0, 3, 511, List.replicate 28 9⟩).rxCount =
      initReceiver.rxCount ∧
    (processFrame initReceiver ⟨0, 3, 511, List.replicate 28 9⟩).rxSeqErrors =
      initReceiver.rxSeqErrors ∧
    (processFrame initReceiver ⟨0, 3, 511, List.replicate 28 9⟩).rxOverruns =
      initReceiver.rxOverruns ∧
    (processFrame initReceiver ⟨0, 3, 511, List.replicate 28 9⟩).lastRxMillis =
      initReceiver.lastRxMillis :=
  C4_invalid_magic initReceiver ⟨0, 3, 511, List.replicate 28 9⟩ (by decide) (by decide)

/-- C2 counterexample: after a valid frame with sequenceIndex 18 and
highestChannelIndex 511 (wrap index 511 / 28 = 18), a valid frame with
sequenceIndex 19 differs from the expected value 0 computed per the claim,
yet the code does not increment `rxSeqErrors` (it also accepts
`previous + 1` after the wrap index): the claim "increments sequenceErrors
exactly when the sequenceIndex differs from expected" is false here. -/
theorem C2_counterexample :
    (processFrame (processFrame (beginInit initReceiver 3)
        ⟨WDMX_MAGIC_1, 18, 511, List.replicate 28 0⟩)
        ⟨WDMX_MAGIC_1, 19, 511, List.replicate 28 0⟩).rxSeqErrors =
      (processFrame (beginInit initReceiver 3)
        ⟨WDMX_MAGIC_1, 18, 511, List.replicate 28 0⟩).rxSeqErrors ∧
    (processFrame (beginInit initReceiver 3)
        ⟨WDMX_MAGIC_1, 18, 511, List.replicate 28 0⟩).firstFrame = false ∧
    (processFrame (beginInit initReceiver 3)
        ⟨WDMX_MAGIC_1, 18, 511, List.replicate 28 0⟩).prevPayloadID = 18 ∧
    (19 : Nat) ≠ specSeqExpected 18 511 := by decide

/-- Effects of processing a frame with a valid magic, shared by the claims
about the steady-state reception path. -/
lemma processFrame_valid (s : WirelessDMXReceiver) (rxBuf : wdmxReceiveBuffer)
    (hm : rxBuf.magic = WDMX_MAGIC_1 ∨ rxBuf.magic = WDMX_MAGIC_2) :
    (s.firstFrame = false →
      (processFrame s rxBuf).rxSeqErrors =
        s.rxSeqErrors +
          (if (rxBuf.payloadID > 0 ∧ rxBuf.payloadID ≠ s.prevPayloadID + 1) ∨
              (rxBuf.payloadID = 0 ∧
                s.prevPayloadID ≠ rxBuf.highestChannelID / payloadDataSize) then 1
            else 0)) ∧
    (s.firstFrame = true → (processFrame s rxBuf).rxSeqErrors = s.rxSeqErrors) ∧
    (processFrame s rxBuf).rxCount = s.rxCount + 1 ∧
    (processFrame s rxBuf).prevPayloadID = rxBuf.payloadID ∧
    (processFrame s rxBuf).dmxBuffer =
      applyPayload s.dmxBuffer rxBuf.dmxData rxBuf.payloadID ∧
    (processFrame s rxBuf).lastRxMillis = s.lastRxMillis := by
  have hmagic : ¬(rxBuf.magic ≠ WDMX_MAGIC_1 ∧ rxBuf.magic ≠ WDMX_MAGIC_2) := by
    rcases hm with h | h <;> simp [h]
  by_cases hc : s.capture <;> by_cases hf : s.firstFrame <;>
    by_cases hcond : (rxBuf.payloadID > 0 ∧ rxBuf.payloadID ≠ s.prevPayloadID + 1) ∨
      (rxBuf.payloadID = 0 ∧
        s.prevPayloadID ≠ rxBuf.highestChannelID / payloadDataSize) <;>
    simp [processFrame, hmagic, hc, hf, hcond]

/-- The reception loop never assigns `_lastRxMillis`, whatever the frame. -/
lemma processFrame_lastRxMillis (s : WirelessDMXReceiver)
    (rxBuf : wdmxReceiveBuffer) :
    (processFrame s rxBuf).lastRxMillis = s.lastRxMillis := by
  by_cases hc : s.capture <;> by_cases hf : s.firstFrame <;>
    by_cases hmag : rxBuf.magic ≠ WDMX_MAGIC_1 ∧ rxBuf.magic ≠ WDMX_MAGIC_2 <;>
    by_cases hcond : (rxBuf.payloadID > 0 ∧ rxBuf.payloadID ≠ s.prevPayloadID + 1) ∨
      (rxBuf.payloadID = 0 ∧
        s.prevPayloadID ≠ rxBuf.highestChannelID / payloadDataSize) <;>
    simp [processFrame, hc, hf, hmag, hcond]

/-- C2 (amended): for every valid frame after the first valid frame, the
loop increments `rxSeqErrors` exactly when (sequenceIndex > 0 and
sequenceIndex differs from previousSequenceIndex + 1) or (sequenceIndex = 0
and previousSequenceIndex differs from highestChannelIndex / 28 of the
CURRENT frame); so a wrap to 0 at the wrap index and the
successor previous + 1 are both accepted.  The check is skipped for the
first valid frame, and a flagged frame is still processed: `rxCount` is
incremented, the sequenceIndex is remembered, and the payload is written. -/
theorem C2_seq_check (s : WirelessDMXReceiver) (rxBuf : wdmxReceiveBuffer)
    (hm : rxBuf.magic = WDMX_MAGIC_1 ∨ rxBuf.magic = WDMX_MAGIC_2) :
    (s.firstFrame = false →
      (processFrame s rxBuf).rxSeqErrors =
        s.rxSeqErrors +
          (if (rxBuf.payloadID > 0 ∧ rxBuf.payloadID ≠ s.prevPayloadID + 1) ∨
              (rxBuf.payloadID = 0 ∧
                s.prevPayloadID ≠ rxBuf.highestChannelID / payloadDataSize) then 1
            else 0)) ∧
    (s.firstFrame = true → (processFrame s rxBuf).rxSeqErrors = s.rxSeqErrors) ∧
    (processFrame s rxBuf).rxCount = s.rxCount + 1 ∧
    (processFrame s rxBuf).prevPayloadID = rxBuf.payloadID ∧
    (processFrame s rxBuf).dmxBuffer =
      applyPayload s.dmxBuffer rxBuf.dmxData rxBuf.payloadID := by
  have h := processFrame_valid s rxBuf hm
  exact ⟨h.1, h.2.1, h.2.2.1, h.2.2.2.1, h.2.2.2.2.1⟩

/-- Witness for C2: a valid frame skipping ahead by 2 from
previousSequenceIndex 3 increments `rxSeqErrors` by 1 and is still written. -/
theorem C2_witness :
    (({ initReceiver with firstFrame := false, prevPayloadID := 3 } :
        WirelessDMXReceiver).firstFrame = false →
      (processFrame { initReceiver with firstFrame := false, prevPayloadID := 3 }
          ⟨WDMX_MAGIC_1, 6, 511, List.replicate 28 1⟩).rxSeqErrors =
        ({ initReceiver with firstFrame := false, prevPayloadID := 3 } :
            WirelessDMXReceiver).rxSeqErrors +
          (if ((6 : Nat) > 0 ∧ (6 : Nat) ≠
                ({ initReceiver with firstFrame := false, prevPayloadID := 3 } :
                  WirelessDMXReceiver).prevPayloadID + 1) ∨
              ((6 : Nat) = 0 ∧
                ({ initReceiver with firstFrame := false, prevPayloadID := 3 } :
                    WirelessDMXReceiver).prevPayloadID ≠
                  511 / payloadDataSize) then 1
            else 0)) ∧
    (({ initReceiver with firstFrame := false, prevPayloadID := 3 } :
        WirelessDMXReceiver).firstFrame = true →
      (processFrame { initReceiver with firstFrame := false, prevPayloadID := 3 }
          ⟨WDMX_MAGIC_1, 6, 511, List.replicate 28 1⟩).rxSeqErrors =
        ({ initReceiver with firstFrame := false, prevPayloadID := 3 } :
          WirelessDMXReceiver).rxSeqErrors) ∧
    (processFrame { initReceiver with firstFrame := false, prevPayloadID := 3 }
        ⟨WDMX_MAGIC_1, 6, 511, List.replicate 28 1⟩).rxCount =
      ({ initReceiver with firstFrame := false, prevPayloadID := 3 } :
        WirelessDMXReceiver).rxCount + 1 ∧
    (processFrame { initReceiver with firstFrame := false, prevPayloadID := 3 }
        ⟨WDMX_MAGIC_1, 6, 511, List.replicate 28 1⟩).prevPayloadID = 6 ∧
    (processFrame { initReceiver with firstFrame := false, prevPayloadID := 3 }
        ⟨WDMX_MAGIC_1, 6, 511, List.replicate 28 1⟩).dmxBuffer =
      applyPayload
        ({ initReceiver with firstFrame := false, prevPayloadID := 3 } :
          WirelessDMXReceiver).dmxBuffer (List.replicate 28 1) 6 :=
  C2_seq_check { initReceiver with firstFrame := false, prevPayloadID := 3 }
    ⟨WDMX_MAGIC_1, 6, 511, List.replicate 28 1⟩ (Or.inl rfl)

/-- C5: for every valid frame, `rxCount` is incremented and the sequence
index is remembered in `prevPayloadID`, but the loop never assigns
`_lastRxMillis`, so the time of receipt is NOT recorded: `lastRxMillis`
stays at its previous value (0 for the lifetime of the object, since no
code ever writes it). -/
theorem C5_processFrame_effects (s : WirelessDMXReceiver) (rxBuf : wdmxReceiveBuffer)
    (hm : rxBuf.magic = WDMX_MAGIC_1 ∨ rxBuf.magic = WDMX_MAGIC_2) :
    (processFrame s rxBuf).rxCount = s.rxCount + 1 ∧
    (processFrame s rxBuf).prevPayloadID = rxBuf.payloadID ∧
    (processFrame s rxBuf).lastRxMillis = s.lastRxMillis ∧
    (∀ rxBuf2 : wdmxReceiveBuffer,
      (processFrame s rxBuf2).lastRxMillis = s.lastRxMillis) ∧
    initReceiver.lastRxMillis = 0 := by
  have h := processFrame_valid s rxBuf hm
  exact ⟨h.2.2.1, h.2.2.2.1, h.2.2.2.2.2,
    fun rxBuf2 => processFrame_lastRxMillis s rxBuf2, rfl⟩

/-- Witness for C5: the first valid frame. -/
theorem C5_witness :
    (processFrame initReceiver ⟨WDMX_MAGIC_1, 0, 511, List.replicate 28 5⟩).rxCount =
      initReceiver.rxCount + 1 ∧
    (processFrame initReceiver
        ⟨WDMX_MAGIC_1, 0, 511, List.replicate 28 5⟩).prevPayloadID = 0 ∧
    (processFrame initReceiver
        ⟨WDMX_MAGIC_1, 0, 511, List.replicate 28 5⟩).lastRxMillis =
      initReceiver.lastRxMillis ∧
    (∀ rxBuf2 : wdmxReceiveBuffer,
      (processFrame initReceiver rxBuf2).lastRxMillis = initReceiver.lastRxMillis) ∧
    initReceiver.lastRxMillis = 0 :=
  C5_processFrame_effects initReceiver ⟨WDMX_MAGIC_1, 0, 511, List.replicate 28 5⟩
    (Or.inl rfl)

/-! ### Claims about the link scanner -/

/-- C6: with a concrete configured unit ID the scanner never changes the
current unit ID; with AUTO the ID starts at RED = 1 and advances exactly
when a probe fails with the channel cursor wrapping, in the order
1, 2, ..., 7 and back to 1 (channel is the fast-varying index). -/
theorem C6_scan_ID_order (s : WirelessDMXReceiver) (probe : Bool) (id : Nat) :
    (s.configID ≠ AUTO → (scanNext s probe).ID = s.ID) ∧
    (probe = true → (scanNext s probe).ID = s.ID) ∧
    (probe = false → s.channel + 1 ≤ 126 → (scanNext s probe).ID = s.ID) ∧
    (probe = false → s.channel + 1 > 126 → s.configID = AUTO →
      1 ≤ s.ID → s.ID ≤ 7 →
      (scanNext s probe).ID = if s.ID < 7 then s.ID + 1 else 1) ∧
    (beginInit s AUTO).ID = 1 ∧
    (id ≠ AUTO → (beginInit s id).ID = id) := by
  refine ⟨?_, ?_, ?_, ?_, ?_, ?_⟩
  · intro hcfg
    by_cases hp : probe <;> by_cases hch : s.channel + 1 > 126 <;>
      simp [scanNext, hp, hch, hcfg]
  · intro hp
    simp [scanNext, hp]
  · intro hp hch
    by_cases hcfg : s.configID = AUTO <;>
      simp [scanNext, hp, hcfg, Nat.not_lt.mpr hch]
  · intro hp hch hcfg h1 h7
    by_cases hid : s.ID < WHITE
    · have hlt : s.ID < 7 := hid
      simp [scanNext, hp, hch, hcfg, hid, hlt, wdmxSucc,
        Nat.mod_eq_of_lt (by omega : s.ID + 1 < 8)]
    · have h7e : s.ID = 7 := by
        unfold WHITE at hid
        omega
      simp [scanNext, hp, hch, hcfg, hid, h7e, RED, WHITE]
  · simp [beginInit, AUTO, RED]
  · intro hid
    simp [beginInit, hid]

/-- Witness for C6: a failed probe at channel 126 with AUTO configuration
and current ID 2 advances the ID to 3. -/
theorem C6_witness :
    (({ initReceiver with configID := AUTO, ID := 2, channel := 126 } :
        WirelessDMXReceiver).configID ≠ AUTO →
      (scanNext { initReceiver with configID := AUTO, ID := 2, channel := 126 }
          false).ID =
        ({ initReceiver with configID := AUTO, ID := 2, channel := 126 } :
          WirelessDMXReceiver).ID) ∧
    (false = true →
      (scanNext { initReceiver with configID := AUTO, ID := 2, channel := 126 }
          false).ID =
        ({ initReceiver with configID := AUTO, ID := 2, channel := 126 } :
          WirelessDMXReceiver).ID) ∧
    (false = false →
      ({ initReceiver with configID := AUTO, ID := 2, channel := 126 } :
          WirelessDMXReceiver).channel + 1 ≤ 126 →
      (scanNext { initReceiver with configID := AUTO, ID := 2, channel := 126 }
          false).ID =
        ({ initReceiver with configID := AUTO, ID := 2, channel := 126 } :
          WirelessDMXReceiver).ID) ∧
    (false = false →
      ({ initReceiver with configID := AUTO, ID := 2, channel := 126 } :
          WirelessDMXReceiver).channel + 1 > 126 →
      ({ initReceiver with configID := AUTO, ID := 2, channel := 126 } :
          WirelessDMXReceiver).configID = AUTO →
      1 ≤ ({ initReceiver with configID := AUTO, ID := 2, channel := 126 } :
          WirelessDMXReceiver).ID →
      ({ initReceiver with configID := AUTO, ID := 2, channel := 126 } :
          WirelessDMXReceiver).ID ≤ 7 →
      (scanNext { initReceiver with configID := AUTO, ID := 2, channel := 126 }
          false).ID =
        if ({ initReceiver with configID := AUTO, ID := 2, channel := 126 } :
            WirelessDMXReceiver).ID < 7 then
          ({ initReceiver with configID := AUTO, ID := 2, channel := 126 } :
            WirelessDMXReceiver).ID + 1
        else 1) ∧
    (beginInit { initReceiver with configID := AUTO, ID := 2, channel := 126 }
        AUTO).ID = 1 ∧
    ((3 : Nat) ≠ AUTO →
      (beginInit { initReceiver with configID := AUTO, ID := 2, channel := 126 }
          3).ID = 3) :=
  C6_scan_ID_order { initReceiver with configID := AUTO, ID := 2, channel := 126 }
    false 3

/-- The scan cursor after n consecutive failed probes, starting from
`begin(YELLOW)` (a fixed concrete unit ID). -/
def scanIterFail : Nat → WirelessDMXReceiver
  | 0 => beginInit initReceiver 3
  | n + 1 => scanNext (scanIterFail n) false

/-- C3 is violated: after 126 consecutive failed probes from session start
the channel cursor is 126 and the scanner is not locked, so the next
`_scanNext` call probes channel 126 — the code wraps only when
`_channel > 126` holds after the increment, hence channel 126 is reached
and probed before the cursor wraps to 0, contradicting the claimed
invariant `currentChannel < 126`. -/
theorem C3_channel_126_reached :
    (scanIterFail 126).channel = 126 ∧
    ¬((scanIterFail 126).channel < 126) ∧
    (scanIterFail 126).locked = false ∧
    (scanNext (scanIterFail 126) false).channel = 0 := by
  have key : ∀ n, n ≤ 126 →
      (scanIterFail n).channel = n ∧ (scanIterFail n).locked = false ∧
      (scanIterFail n).configID = 3 := by
    intro n
    induction n with
    | zero => intro _; exact ⟨rfl, rfl, rfl⟩
    | succ k ih =>
      intro hk
      obtain ⟨hch, hlk, hcfg⟩ := ih (by omega)
      have hnot : ¬(126 < k + 1) := by omega
      refine ⟨?_, ?_, ?_⟩ <;>
        simp [scanIterFail, scanNext, hch, hnot, hcfg]
  obtain ⟨h126, hlk, hcfg⟩ := key 126 (by omega)
  refine ⟨h126, by omega, hlk, ?_⟩
  simp [scanNext, h126, hcfg, AUTO]

/-! ### Counter monotonicity -/

/-- No branch of the frame-processing path ever decreases a counter. -/
lemma counters_mono_processFrame (s : WirelessDMXReceiver) (rxBuf : wdmxReceiveBuffer) :
    s.rxCount ≤ (processFrame s rxBuf).rxCount ∧
    s.rxInvalid ≤ (processFrame s rxBuf).rxInvalid ∧
    s.rxOverruns ≤ (processFrame s rxBuf).rxOverruns ∧
    s.rxSeqErrors ≤ (processFrame s rxBuf).rxSeqErrors := by
  by_cases hc : s.capture <;>
    by_cases hmag : rxBuf.magic ≠ WDMX_MAGIC_1 ∧ rxBuf.magic ≠ WDMX_MAGIC_2 <;>
    by_cases hf : s.firstFrame <;>
    by_cases hcond : (rxBuf.payloadID > 0 ∧ rxBuf.payloadID ≠ s.prevPayloadID + 1) ∨
      (rxBuf.payloadID = 0 ∧
        s.prevPayloadID ≠ rxBuf.highestChannelID / payloadDataSize) <;>
    simp [processFrame, hc, hmag, hf, hcond] <;> omega

/-- No iteration of the reception loop ever decreases a counter. -/
lemma counters_mono_loopIter (s : WirelessDMXReceiver) (fifoFull : Bool)
    (frame : Option wdmxReceiveBuffer) :
    s.rxCount ≤ (loopIter s fifoFull frame).rxCount ∧
    s.rxInvalid ≤ (loopIter s fifoFull frame).rxInvalid ∧
    s.rxOverruns ≤ (loopIter s fifoFull frame).rxOverruns ∧
    s.rxSeqErrors ≤ (loopIter s fifoFull frame).rxSeqErrors := by
  cases frame with
  | none => by_cases hff : fifoFull <;> simp [loopIter, hff] <;> omega
  | some rxBuf =>
    by_cases hff : fifoFull <;>
      by_cases hmag : rxBuf.magic ≠ WDMX_MAGIC_1 ∧ rxBuf.magic ≠ WDMX_MAGIC_2 <;>
      by_cases hf : s.firstFrame <;> by_cases hc : s.capture <;>
      by_cases hcond : (rxBuf.payloadID > 0 ∧ rxBuf.payloadID ≠ s.prevPayloadID + 1) ∨
        (rxBuf.payloadID = 0 ∧
          s.prevPayloadID ≠ rxBuf.highestChannelID / payloadDataSize) <;>
      simp [loopIter, processFrame, hff, hmag, hf, hc, hcond] <;> omega

/-- C9 counterexample: `begin` does not reset the counters.  Starting from a
receiver whose `rxCount` is 5 (as after a previous session), `begin(3)`
leaves `rxCount` at 5, not 0 — the counters are zero only because the
in-class member defaults set them at object construction. -/
theorem C9_counterexample :
    (beginInit { initReceiver with rxCount := 5 } 3).rxCount = 5 ∧ (5 : Nat) ≠ 0 :=
  ⟨rfl, by decide⟩

/-- C9 (amended): the four counters start at zero at object
construction; `begin` leaves each of them unchanged (it does not reset
them); and no scan step and no reception-loop iteration ever decreases any
of them. -/
theorem C9_counters_monotone (s : WirelessDMXReceiver) (id : Nat)
    (probe fifoFull : Bool) (frame : Option wdmxReceiveBuffer) :
    (initReceiver.rxCount = 0 ∧ initReceiver.rxInvalid = 0 ∧
      initReceiver.rxOverruns = 0 ∧ initReceiver.rxSeqErrors = 0) ∧
    ((beginInit s id).rxCount = s.rxCount ∧
      (beginInit s id).rxInvalid = s.rxInvalid ∧
      (beginInit s id).rxOverruns = s.rxOverruns ∧
      (beginInit s id).rxSeqErrors = s.rxSeqErrors) ∧
    (s.rxCount ≤ (scanNext s probe).rxCount ∧
      s.rxInvalid ≤ (scanNext s probe).rxInvalid ∧
      s.rxOverruns ≤ (scanNext s probe).rxOverruns ∧
      s.rxSeqErrors ≤ (scanNext s probe).rxSeqErrors) ∧
    (s.rxCount ≤ (loopIter s fifoFull frame).rxCount ∧
      s.rxInvalid ≤ (loopIter s fifoFull frame).rxInvalid ∧
      s.rxOverruns ≤ (loopIter s fifoFull frame).rxOverruns ∧
      s.rxSeqErrors ≤ (loopIter s fifoFull frame).rxSeqErrors) := by
  refine ⟨⟨rfl, rfl, rfl, rfl⟩, ⟨rfl, rfl, rfl, rfl⟩, ?_,
    counters_mono_loopIter s fifoFull frame⟩
  by_cases hp : probe <;> by_cases hch : 126 < s.channel + 1 <;>
    by_cases hcfg : s.configID = AUTO <;> by_cases hid : s.ID < WHITE <;>
    simp [scanNext, hp, hch, hcfg, hid]

/-! ### Public accessors -/

lemma getValueIdx_eq (a : Nat) (h1 : 1 ≤ a) (h2 : a ≤ DMX_BUFSIZE) :
    getValueIdx a = a - 1 := by
  unfold getValueIdx sizetSub UINT32_MOD DMX_BUFSIZE at *
  omega

/-- C10: the read accessors are 1-based and unchecked.  For addresses 1..512,
`getValue(address)` reads `dmxBuffer[address-1]` and the access is in
bounds; for address 0 the unsigned computation `address-1` underflows to
2^32 - 1, outside the 512-byte buffer; `getValues(startAddress, length, ...)`
reads indices startAddress-1, ..., startAddress-1+length-1, all in bounds
exactly under the precondition 1 <= startAddress and
(startAddress-1) + length <= 512. -/
theorem C10_accessors (s : WirelessDMXReceiver)
    (hs : s.dmxBuffer.length = DMX_BUFSIZE) :
    (∀ a, 1 ≤ a → a ≤ DMX_BUFSIZE →
      getValueIdx a = a - 1 ∧ getValueIdx a < DMX_BUFSIZE ∧
      getValue s a = s.dmxBuffer.getD (a - 1) 0) ∧
    (getValueIdx 0 = UINT32_MOD - 1 ∧ ¬(getValueIdx 0 < s.dmxBuffer.length)) ∧
    (∀ st len, 1 ≤ st → st ≤ DMX_BUFSIZE →
      getValues s st len =
        (List.range len).map (fun i => s.dmxBuffer.getD (st - 1 + i) 0)) ∧
    (∀ st len, 1 ≤ st → st - 1 + len ≤ DMX_BUFSIZE →
      ∀ i ∈ getValuesIdx st len, i < DMX_BUFSIZE) := by
  refine ⟨?_, ⟨?_, ?_⟩, ?_, ?_⟩
  · intro a h1 h2
    have he := getValueIdx_eq a h1 h2
    refine ⟨he, ?_, ?_⟩
    · rw [he]
      unfold DMX_BUFSIZE at *
      omega
    · unfold getValue
      rw [he]
  · decide
  · rw [hs]
    decide
  · intro st len h1 h2
    unfold getValues
    simp only [getValueIdx_eq st h1 h2]
  · intro st len h1 h2 i hi
    unfold getValuesIdx at hi
    simp only [List.mem_map, List.mem_range] at hi
    obtain ⟨j, hj, rfl⟩ := hi
    rw [getValueIdx_eq st h1 (by unfold DMX_BUFSIZE at *; omega)]
    unfold DMX_BUFSIZE at *
    omega

/-- Witness for C10 at address 5 (in bounds) and address 0 (underflow). -/
theorem C10_witness :
    (getValueIdx 5 = 5 - 1 ∧ getValueIdx 5 < DMX_BUFSIZE ∧
      getValue initReceiver 5 = initReceiver.dmxBuffer.getD (5 - 1) 0) ∧
    (getValueIdx 0 = UINT32_MOD - 1 ∧
      ¬(getValueIdx 0 < initReceiver.dmxBuffer.length)) :=
  ⟨(C10_accessors initReceiver
      (by rw [show initReceiver.dmxBuffer = List.replicate DMX_BUFSIZE 0 from rfl,
        List.length_replicate])).1 5 (by decide) (by decide),
   (C10_accessors initReceiver
      (by rw [show initReceiver.dmxBuffer = List.replicate DMX_BUFSIZE 0 from rfl,
        List.length_replicate])).2.1⟩
